import Mathlib

/-!
Verification of the Miden VM core against its specification.

This file contains a shallow embedding of the relevant parts of the
repository (hasher chiplet constants and state mutators, code-block
construction, the operation enumeration and opcode table, the
Merkle-tree assembly macro expansions, the boolean stack operations,
and the hash-accumulator AIR constraint), together with theorems
settling the specification claims.
-/

-- ================================================================================
-- FIELD ELEMENTS
-- ================================================================================

/-- The modulus of the Miden base field: 2^64 - 2^32 + 1. -/
abbrev feltModulus : ℕ := 18446744069414584321

/-- A base field element (`Felt` in the source). -/
abbrev Felt : Type := ZMod feltModulus

/-- `Felt::new(n)`: field element from an integer value. -/
def Felt.new (n : ℕ) : Felt := (n : Felt)

/-- `Felt::ZERO`. -/
def Felt.ZERO : Felt := 0

/-- `Felt::ONE`. -/
def Felt.ONE : Felt := 1

-- ================================================================================
-- HASHER CHIPLET CONSTANTS (src/core/src/chiplets/hasher.rs)
-- ================================================================================

/-- `STATE_WIDTH`: number of field elements in the hasher sponge state. -/
abbrev STATE_WIDTH : ℕ := 12

/-- `RATE_LEN`: number of field elements in the rate portion of the state. -/
abbrev RATE_LEN : ℕ := 8

/-- `CAPACITY_LEN`: number of field elements in the capacity portion of the state. -/
abbrev CAPACITY_LEN : ℕ := STATE_WIDTH - RATE_LEN

/-- `NUM_SELECTORS`: number of selector columns in the hasher trace. -/
abbrev NUM_SELECTORS : ℕ := 3

/-- `Selectors`: array of `NUM_SELECTORS` field elements identifying a hasher
transition function. -/
def Selectors : Type := Fin NUM_SELECTORS → Felt

/-- `LINEAR_HASH` selector vector `[ONE, ZERO, ZERO]`. -/
def LINEAR_HASH : Selectors := ![Felt.ONE, Felt.ZERO, Felt.ZERO]

/-- `LINEAR_HASH_LABEL = Felt::new(3)`. -/
def LINEAR_HASH_LABEL : Felt := Felt.new 3

/-- `MP_VERIFY` selector vector `[ONE, ZERO, ONE]`. -/
def MP_VERIFY : Selectors := ![Felt.ONE, Felt.ZERO, Felt.ONE]

/-- `MP_VERIFY_LABEL = Felt::new(11)`. -/
def MP_VERIFY_LABEL : Felt := Felt.new 11

/-- `MR_UPDATE_OLD` selector vector `[ONE, ONE, ZERO]`. -/
def MR_UPDATE_OLD : Selectors := ![Felt.ONE, Felt.ONE, Felt.ZERO]

/-- `MR_UPDATE_OLD_LABEL = Felt::new(7)`. -/
def MR_UPDATE_OLD_LABEL : Felt := Felt.new 7

/-- `MR_UPDATE_NEW` selector vector `[ONE, ONE, ONE]`. -/
def MR_UPDATE_NEW : Selectors := ![Felt.ONE, Felt.ONE, Felt.ONE]

/-- `MR_UPDATE_NEW_LABEL = Felt::new(15)`. -/
def MR_UPDATE_NEW_LABEL : Felt := Felt.new 15

/-- `RETURN_HASH` selector vector `[ZERO, ZERO, ZERO]`. -/
def RETURN_HASH : Selectors := ![Felt.ZERO, Felt.ZERO, Felt.ZERO]

/-- `RETURN_HASH_LABEL = Felt::new(1)`. -/
def RETURN_HASH_LABEL : Felt := Felt.new 1

/-- `RETURN_STATE` selector vector `[ZERO, ZERO, ONE]`. -/
def RETURN_STATE : Selectors := ![Felt.ZERO, Felt.ZERO, Felt.ONE]

/-- `RETURN_STATE_LABEL = Felt::new(9)`. -/
def RETURN_STATE_LABEL : Felt := Felt.new 9

/-- The label scheme described in the source documentation: one more than the
binary value of the bit vector formed by the hasher chiplet selector bit
(which is `0` for the hasher chiplet) followed by the three operation
selector bits, the chiplet bit being the least significant. -/
def selector_label (s : Selectors) : Felt :=
  Felt.ONE + ((0 : Felt) + 2 * s 0 + 4 * s 1 + 8 * s 2)

/-- Distinct natural numbers below the field modulus map to distinct field
elements. -/
theorem Felt.new_ne_of_ne {a b : ℕ} (ha : a < feltModulus) (hb : b < feltModulus)
    (hab : a ≠ b) : Felt.new a ≠ Felt.new b := by
  intro h
  have h2 := congrArg ZMod.val h
  rw [Felt.new, Felt.new, ZMod.val_natCast_of_lt ha, ZMod.val_natCast_of_lt hb] at h2
  exact hab h2

/-- C3: For each of the six hasher mode selector constants, the associated label
constant equals one plus the binary value of the selector bits with the chiplet
bit included (giving 3, 11, 7, 15, 1, 9 respectively), and the six label values
are pairwise distinct. -/
theorem hasher_mode_labels_spec :
    (LINEAR_HASH_LABEL = selector_label LINEAR_HASH ∧ LINEAR_HASH_LABEL = Felt.new 3)
  ∧ (MP_VERIFY_LABEL = selector_label MP_VERIFY ∧ MP_VERIFY_LABEL = Felt.new 11)
  ∧ (MR_UPDATE_OLD_LABEL = selector_label MR_UPDATE_OLD ∧ MR_UPDATE_OLD_LABEL = Felt.new 7)
  ∧ (MR_UPDATE_NEW_LABEL = selector_label MR_UPDATE_NEW ∧ MR_UPDATE_NEW_LABEL = Felt.new 15)
  ∧ (RETURN_HASH_LABEL = selector_label RETURN_HASH ∧ RETURN_HASH_LABEL = Felt.new 1)
  ∧ (RETURN_STATE_LABEL = selector_label RETURN_STATE ∧ RETURN_STATE_LABEL = Felt.new 9)
  ∧ List.Pairwise (fun a b => a ≠ b)
      [LINEAR_HASH_LABEL, MP_VERIFY_LABEL, MR_UPDATE_OLD_LABEL,
       MR_UPDATE_NEW_LABEL, RETURN_HASH_LABEL, RETURN_STATE_LABEL] := by
  refine ⟨⟨?_, rfl⟩, ⟨?_, rfl⟩, ⟨?_, rfl⟩, ⟨?_, rfl⟩, ⟨?_, rfl⟩, ⟨?_, rfl⟩, ?_⟩
  · norm_num [selector_label, LINEAR_HASH, Felt.new, Felt.ONE, Felt.ZERO,
      LINEAR_HASH_LABEL, Matrix.cons_val_zero, Matrix.cons_val_one, Matrix.head_cons]
  · norm_num [selector_label, MP_VERIFY, Felt.new, Felt.ONE, Felt.ZERO,
      MP_VERIFY_LABEL, Matrix.cons_val_zero, Matrix.cons_val_one, Matrix.head_cons]
  · norm_num [selector_label, MR_UPDATE_OLD, Felt.new, Felt.ONE, Felt.ZERO,
      MR_UPDATE_OLD_LABEL, Matrix.cons_val_zero, Matrix.cons_val_one, Matrix.head_cons]
  · norm_num [selector_label, MR_UPDATE_NEW, Felt.new, Felt.ONE, Felt.ZERO,
      MR_UPDATE_NEW_LABEL, Matrix.cons_val_zero, Matrix.cons_val_one, Matrix.head_cons]
  · norm_num [selector_label, RETURN_HASH, Felt.new, Felt.ONE, Felt.ZERO,
      RETURN_HASH_LABEL, Matrix.cons_val_zero, Matrix.cons_val_one, Matrix.head_cons]
  · norm_num [selector_label, RETURN_STATE, Felt.new, Felt.ONE, Felt.ZERO,
      RETURN_STATE_LABEL, Matrix.cons_val_zero, Matrix.cons_val_one, Matrix.head_cons]
  · have hmap : List.map ZMod.val
        [LINEAR_HASH_LABEL, MP_VERIFY_LABEL, MR_UPDATE_OLD_LABEL,
         MR_UPDATE_NEW_LABEL, RETURN_HASH_LABEL, RETURN_STATE_LABEL]
        = [3, 11, 7, 15, 1, 9] := by
      simp only [List.map_cons, List.map_nil, LINEAR_HASH_LABEL, MP_VERIFY_LABEL,
        MR_UPDATE_OLD_LABEL, MR_UPDATE_NEW_LABEL, RETURN_HASH_LABEL,
        RETURN_STATE_LABEL, Felt.new, ZMod.val_natCast]
      norm_num
    have hnodup : ([3, 11, 7, 15, 1, 9] : List ℕ).Nodup := by decide
    exact List.Nodup.of_map ZMod.val (hmap ▸ hnodup)

-- ================================================================================
-- HASHER STATE MUTATORS (src/core/src/chiplets/hasher.rs)
-- ================================================================================

/-- `absorb_into_state`: absorbs the specified values into the provided state by
adding values to corresponding elements in the rate portion of the state
(`state[4] += values[0]` through `state[11] += values[7]`). -/
def absorb_into_state (state : Fin STATE_WIDTH → Felt) (values : Fin RATE_LEN → Felt) :
    Fin STATE_WIDTH → Felt :=
  ![state 0, state 1, state 2, state 3,
    state 4 + values 0, state 5 + values 1, state 6 + values 2, state 7 + values 3,
    state 8 + values 4, state 9 + values 5, state 10 + values 6, state 11 + values 7]

/-- C7: `absorb_into_state` sets each rate element to the sum of the existing
rate element and the absorbed value (it adds, not overwrites), and leaves the
four capacity elements unchanged. -/
theorem absorb_into_state_spec (state : Fin STATE_WIDTH → Felt)
    (values : Fin RATE_LEN → Felt) :
    (∀ i : Fin RATE_LEN,
        absorb_into_state state values ⟨4 + i.val, by show 4 + i.val < 12; have h : i.val < 8 := i.isLt; omega⟩
          = state ⟨4 + i.val, by show 4 + i.val < 12; have h : i.val < 8 := i.isLt; omega⟩ + values i)
  ∧ (∀ j : Fin CAPACITY_LEN,
        absorb_into_state state values ⟨j.val, by show j.val < 12; have h : j.val < 4 := j.isLt; omega⟩
          = state ⟨j.val, by show j.val < 12; have h : j.val < 4 := j.isLt; omega⟩) := by
  constructor
  · intro i; fin_cases i <;> rfl
  · intro j; fin_cases j <;> rfl

-- ================================================================================
-- CODE BLOCKS (src/core/src/program/blocks/join_block.rs, split_block.rs)
-- ================================================================================

/-- A digest: 4 field elements. -/
def Digest : Type := Felt × Felt × Felt × Felt

/-- Modelled from the spec: a decorator (debug or procedure marker) attached to
a code block. Its payload is irrelevant to block hashing, so it is abstracted
to a tag; the `Decorator` type itself is declared outside the provided
sources. -/
structure Decorator where
  tag : ℕ

/-- Modelled from the spec: a child code block, abstracted by its cached
digest. The recursive `CodeBlock` enumeration (join, split, loop, span) is
declared outside the provided sources; `Join::new` and `Split::new` read only
`child.hash()` from their children. -/
structure CodeBlock where
  hash : Digest

/-- The `Join` block: two child blocks, a cached hash, and procedure markers. -/
structure Join where
  body : CodeBlock × CodeBlock
  hash : Digest
  proc_markers : List Decorator

/-- `Join::new`: computes `hash = merge([body[0].hash(), body[1].hash()])` at
construction and stores it in the block. The external 2-to-1 hash `merge` is
passed as a parameter. -/
def Join.new (merge : Digest → Digest → Digest) (body : CodeBlock × CodeBlock) : Join :=
  { body := body, hash := merge body.1.hash body.2.hash, proc_markers := [] }

/-- `Join::first`. -/
def Join.first (j : Join) : CodeBlock := j.body.1

/-- `Join::second`. -/
def Join.second (j : Join) : CodeBlock := j.body.2

/-- `Join::append_proc_marker`: pushes a decorator onto `proc_markers`. -/
def Join.append_proc_marker (j : Join) (proc_marker : Decorator) : Join :=
  { j with proc_markers := j.proc_markers ++ [proc_marker] }

/-- The `Split` block: true/false branches, a cached hash, and procedure
markers. -/
structure Split where
  branches : CodeBlock × CodeBlock
  hash : Digest
  proc_markers : List Decorator

/-- `Split::new`: computes `hash = merge([t_branch.hash(), f_branch.hash()])`
at construction and stores it in the block. -/
def Split.new (merge : Digest → Digest → Digest) (t_branch f_branch : CodeBlock) : Split :=
  { branches := (t_branch, f_branch), hash := merge t_branch.hash f_branch.hash,
    proc_markers := [] }

/-- `Split::on_true`. -/
def Split.on_true (s : Split) : CodeBlock := s.branches.1

/-- `Split::on_false`. -/
def Split.on_false (s : Split) : CodeBlock := s.branches.2

/-- `Split::append_proc_marker`: pushes a decorator onto `proc_markers`. -/
def Split.append_proc_marker (s : Split) (proc_marker : Decorator) : Split :=
  { s with proc_markers := s.proc_markers ++ [proc_marker] }

/-- C1: `Join::new([b0, b1])` and `Split::new(b0, b1)` compute
`merge([b0.hash(), b1.hash()])` at construction and store it in the block
(together with the children themselves), and the `hash()` accessor returns
exactly this cached digest. -/
theorem join_split_hash_at_construction (merge : Digest → Digest → Digest)
    (b0 b1 : CodeBlock) :
    (Join.new merge (b0, b1)).hash = merge b0.hash b1.hash
  ∧ (Join.new merge (b0, b1)).first = b0 ∧ (Join.new merge (b0, b1)).second = b1
  ∧ (Split.new merge b0 b1).hash = merge b0.hash b1.hash
  ∧ (Split.new merge b0 b1).on_true = b0 ∧ (Split.new merge b0 b1).on_false = b1 :=
  ⟨rfl, rfl, rfl, rfl, rfl, rfl⟩

/-- C2: for every `Join` or `Split` block and every decorator,
`append_proc_marker` leaves the cached hash and the child blocks unchanged;
only the `proc_markers` list is extended. -/
theorem append_proc_marker_frame (j : Join) (s : Split) (d : Decorator) :
    ((j.append_proc_marker d).hash = j.hash
      ∧ (j.append_proc_marker d).body = j.body
      ∧ (j.append_proc_marker d).proc_markers = j.proc_markers ++ [d])
  ∧ ((s.append_proc_marker d).hash = s.hash
      ∧ (s.append_proc_marker d).branches = s.branches
      ∧ (s.append_proc_marker d).proc_markers = s.proc_markers ++ [d]) :=
  ⟨⟨rfl, rfl, rfl⟩, ⟨rfl, rfl, rfl⟩⟩

-- ================================================================================
-- OPERATIONS (src/core/src/operations/mod.rs)
-- ================================================================================

/-- Modelled from the spec: options carried by a `Debug` decorator; their
content is irrelevant to the opcode table, so a single tag stands in for the
`DebugOptions` enumeration declared outside the provided sources. -/
structure DebugOptions where
  tag : ℕ
deriving DecidableEq

/-- `AdviceInjector`: the advice-injector kind carried by an `Advice`
decorator. Only the `MerkleNode` injector is referenced by the sources under
verification; the remaining variants of the enumeration (declared outside the
provided sources) are irrelevant to the opcode table and are represented by a
tagged variant. -/
inductive AdviceInjector where
  | MerkleNode
  | Other (tag : ℕ)
deriving DecidableEq

/-- Modelled from the spec: procedure information carried by a `ProcStart`
decorator (name, number of locals, etc.); abstracted to a tag, as its content
is irrelevant to the opcode table. -/
structure ProcInfo where
  tag : ℕ
deriving DecidableEq

/-- The `Operation` enumeration: all VM operations, including the decorator
variants. -/
inductive Operation where
  | Noop
  | Assert
  | FmpAdd
  | FmpUpdate
  | Join
  | Split
  | Loop
  | Span
  | End
  | Repeat
  | Respan
  | Add
  | Neg
  | Mul
  | Inv
  | Incr
  | And
  | Or
  | Not
  | Eq
  | Eqz
  | Eqw
  | U32split
  | U32add
  | U32addc
  | U32sub
  | U32mul
  | U32madd
  | U32div
  | U32and
  | U32or
  | U32xor
  | Pad
  | Drop
  | Dup0
  | Dup1
  | Dup2
  | Dup3
  | Dup4
  | Dup5
  | Dup6
  | Dup7
  | Dup9
  | Dup11
  | Dup13
  | Dup15
  | Swap
  | SwapW
  | SwapW2
  | SwapW3
  | MovUp2
  | MovUp3
  | MovUp4
  | MovUp5
  | MovUp6
  | MovUp7
  | MovUp9
  | MovUp11
  | MovUp13
  | MovUp15
  | MovDn2
  | MovDn3
  | MovDn4
  | MovDn5
  | MovDn6
  | MovDn7
  | MovDn9
  | MovDn11
  | MovDn13
  | MovDn15
  | CSwap
  | CSwapW
  | Push (imm : Felt)
  | Read
  | ReadW
  | LoadW
  | StoreW
  | SDepth
  | RpPerm
  | MpVerify
  | MrUpdate (copy : Bool)
  | Debug (options : DebugOptions)
  | Advice (injector : AdviceInjector)
  | ProcStart (info : ProcInfo)
  | ProcEnd

/-- `Operation::op_code`: the opcode of this operation, transcribed from the
source's match arm for every variant. -/
def Operation.op_code : Operation → Option ℕ
  | .Noop => some 0b00000000
  | .Assert => some 0b00000001
  | .FmpAdd => some 0b00111101
  | .FmpUpdate => some 0b00111101
  | .Push _ => some 0b00000010
  | .Eq => some 0b00000011
  | .Eqz => some 0b00000100
  | .Eqw => some 0b00000100
  | .Add => some 0b00000101
  | .Neg => some 0b00000110
  | .Mul => some 0b00000111
  | .Inv => some 0b00001000
  | .Incr => some 0b00001001
  | .And => some 0b00001010
  | .Or => some 0b00001011
  | .Not => some 0b00001100
  | .Pad => some 0b00001101
  | .Drop => some 0b00001110
  | .Dup0 => some 0b00010000
  | .Dup1 => some 0b00010001
  | .Dup2 => some 0b00010010
  | .Dup3 => some 0b00010011
  | .Dup4 => some 0b00010100
  | .Dup5 => some 0b00010101
  | .Dup6 => some 0b00010110
  | .Dup7 => some 0b00010111
  | .Dup9 => some 0b00011000
  | .Dup11 => some 0b00011001
  | .Dup13 => some 0b00011011
  | .Dup15 => some 0b00011100
  | .Swap => some 0b00100000
  | .SwapW => some 0b00100001
  | .SwapW2 => some 0b00100010
  | .SwapW3 => some 0b00100011
  | .MovUp2 => some 0b00100001
  | .MovUp3 => some 0b00100010
  | .MovUp4 => some 0b00100011
  | .MovUp5 => some 0b00100100
  | .MovUp6 => some 0b00100101
  | .MovUp7 => some 0b00100110
  | .MovUp9 => some 0b00100111
  | .MovUp11 => some 0b00101000
  | .MovUp13 => some 0b00101001
  | .MovUp15 => some 0b00101011
  | .MovDn2 => some 0b00100110
  | .MovDn3 => some 0b00100111
  | .MovDn4 => some 0b00101000
  | .MovDn5 => some 0b00101001
  | .MovDn6 => some 0b00101010
  | .MovDn7 => some 0b00101010
  | .MovDn9 => some 0b00101010
  | .MovDn11 => some 0b00101010
  | .MovDn13 => some 0b00101010
  | .MovDn15 => some 0b00101010
  | .CSwap => some 0b00101010
  | .CSwapW => some 0b00101010
  | .U32split => some 0b00110000
  | .U32add => some 0b00110001
  | .U32addc => some 0b00110010
  | .U32sub => some 0b00110011
  | .U32mul => some 0b00110100
  | .U32madd => some 0b00110101
  | .U32div => some 0b00110110
  | .U32and => some 0b00110111
  | .U32or => some 0b00111000
  | .U32xor => some 0b00111001
  | .LoadW => some 0b00111010
  | .StoreW => some 0b00111011
  | .Read => some 0b00111100
  | .ReadW => some 0b00111101
  | .SDepth => some 0b00111101
  | .RpPerm => some 0b00111111
  | .MpVerify => some 0b00111110
  | .MrUpdate _ => some 0b00111110
  | .End => some 0b01110000
  | .Join => some 0b01110001
  | .Split => some 0b01110010
  | .Loop => some 0b01110011
  | .Repeat => some 0b01110100
  | .Respan => some 0b01111000
  | .Span => some 0b01111111
  | .Debug _ => none
  | .Advice _ => none
  | .ProcStart _ => some 0b11110000
  | .ProcEnd => some 0b11110001

/-- `Operation::is_decorator`: true exactly for `Debug` and `Advice`. -/
def Operation.is_decorator : Operation → Bool
  | .Debug _ => true
  | .Advice _ => true
  | _ => false

/-- C9: the opcode assignment is not injective: `MovDn6`, `MovDn7`, `MovDn9`,
`MovDn11`, `MovDn13`, `MovDn15`, `CSwap` and `CSwapW` — pairwise distinct
variants — all map to the same opcode, and `FmpAdd` maps to the same opcode as
`FmpUpdate`; in particular `op_code` is not injective. -/
theorem op_code_not_injective :
    (Operation.MovDn6.op_code = some 0b00101010
      ∧ Operation.MovDn7.op_code = some 0b00101010
      ∧ Operation.MovDn9.op_code = some 0b00101010
      ∧ Operation.MovDn11.op_code = some 0b00101010
      ∧ Operation.MovDn13.op_code = some 0b00101010
      ∧ Operation.MovDn15.op_code = some 0b00101010
      ∧ Operation.CSwap.op_code = some 0b00101010
      ∧ Operation.CSwapW.op_code = some 0b00101010)
  ∧ List.Pairwise (fun a b => a ≠ b)
      ([.MovDn6, .MovDn7, .MovDn9, .MovDn11, .MovDn13, .MovDn15, .CSwap, .CSwapW] :
        List Operation)
  ∧ (Operation.FmpAdd.op_code = some 0b00111101
      ∧ Operation.FmpUpdate.op_code = some 0b00111101
      ∧ Operation.FmpAdd ≠ Operation.FmpUpdate)
  ∧ ¬ Function.Injective Operation.op_code := by
  refine ⟨⟨rfl, rfl, rfl, rfl, rfl, rfl, rfl, rfl⟩, ?_,
    ⟨rfl, rfl, fun h => nomatch h⟩, ?_⟩
  · refine List.Pairwise.cons ?_ (List.Pairwise.cons ?_ (List.Pairwise.cons ?_
      (List.Pairwise.cons ?_ (List.Pairwise.cons ?_ (List.Pairwise.cons ?_
      (List.Pairwise.cons ?_ (List.Pairwise.cons ?_ List.Pairwise.nil))))))) <;>
      intro a ha <;> fin_cases ha <;> exact fun h => nomatch h
  · intro hinj
    have h2 : Operation.FmpAdd = Operation.FmpUpdate := hinj rfl
    exact absurd h2 (fun h => nomatch h)

/-- C10: `op_code` returns `none` exactly on the operations for which
`is_decorator` is true; `is_decorator` holds exactly for the `Debug` and
`Advice` variants; the procedure markers `ProcStart` and `ProcEnd` are not
decorators and are assigned opcodes. -/
theorem op_code_none_iff_decorator :
    (∀ op : Operation, op.op_code = none ↔ op.is_decorator = true)
  ∧ (∀ op : Operation,
      op.is_decorator = true
        ↔ ((∃ d, op = .Debug d) ∨ (∃ inj, op = .Advice inj)))
  ∧ (∀ info : ProcInfo,
      (Operation.ProcStart info).is_decorator = false
        ∧ (Operation.ProcStart info).op_code = some 0b11110000)
  ∧ (Operation.ProcEnd.is_decorator = false
      ∧ Operation.ProcEnd.op_code = some 0b11110001) := by
  refine ⟨?_, ?_, fun info => ⟨rfl, rfl⟩, ⟨rfl, rfl⟩⟩
  · intro op
    cases op <;> simp [Operation.op_code, Operation.is_decorator]
  · intro op
    cases op <;> simp [Operation.is_decorator]

-- ================================================================================
-- MERKLE-TREE MACRO EXPANSIONS (src/assembly/src/parsers/crypto_ops.rs)
-- ================================================================================

/-- `validate_and_drop_root`: verifies that the two words at the top of the
stack are equal (`Eqw`, `Assert`) and drops one of the duplicate roots
(4 × `Drop`). Operations are appended to `span_ops`. -/
def validate_and_drop_root (span_ops : List Operation) : List Operation :=
  span_ops ++ [.Eqw, .Assert] ++ List.replicate 4 .Drop

/-- `mtree_get`: appends the MPVERIFY op and the stack manipulations required
to verify that a Merkle tree with root `R` opens to node `V` at depth `d` and
index `i`. -/
def mtree_get (span_ops : List Operation) : List Operation :=
  validate_and_drop_root
    (span_ops
      ++ [.Advice .MerkleNode]
      ++ [.MovDn5, .MovDn5]
      ++ List.replicate 4 .Read
      ++ [.SwapW]
      ++ List.replicate 4 .Dup7
      ++ [.MovUp13, .MovUp13]
      ++ [.MpVerify]
      ++ [.Drop, .Drop])
  ++ [.SwapW]

/-- `prep_stack_for_mrupdate`: duplicates the new node value and reorders the
stack as expected by the MRUPDATE operation. -/
def prep_stack_for_mrupdate (span_ops : List Operation) : List Operation :=
  span_ops
    ++ [.MovDn9, .MovDn9]
    ++ [.SwapW]
    ++ [.MovUp9, .MovUp9]
    ++ [.Advice .MerkleNode]
    ++ List.replicate 4 .Dup9
    ++ List.replicate 4 .Read
    ++ [.MovUp9, .MovUp9]

/-- `validate_root_after_mrupdate`: drops depth and index, reorders the stack,
and validates that the computed and the old Merkle roots are equal. -/
def validate_root_after_mrupdate (span_ops : List Operation) : List Operation :=
  validate_and_drop_root (span_ops ++ [.Drop, .Drop] ++ [.SwapW] ++ [.SwapW2])

/-- `mtree_set`: appends the MRUPDATE op (with parameter `false`) and the stack
manipulations required to update a node in the Merkle tree. -/
def mtree_set (span_ops : List Operation) : List Operation :=
  validate_root_after_mrupdate (prep_stack_for_mrupdate span_ops ++ [.MrUpdate false])
    ++ List.replicate 4 .Drop
    ++ [.SwapW]

/-- `mtree_cwm`: appends the MRUPDATE op (with parameter `true`) and the stack
manipulations required to copy a Merkle tree and update a node in the copy. -/
def mtree_cwm (span_ops : List Operation) : List Operation :=
  validate_root_after_mrupdate (prep_stack_for_mrupdate span_ops ++ [.MrUpdate true])
    ++ [.SwapW2]

/-- C5: parsing `mtree.get` appends exactly the operation sequence
`Advice(MerkleNode); MovDn5; MovDn5; Read ×4; SwapW; Dup7 ×4; MovUp13;
MovUp13; MpVerify; Drop; Drop; Eqw; Assert; Drop ×4; SwapW`. -/
theorem mtree_get_op_sequence (span_ops : List Operation) :
    mtree_get span_ops = span_ops ++
      [.Advice .MerkleNode,
       .MovDn5, .MovDn5,
       .Read, .Read, .Read, .Read,
       .SwapW,
       .Dup7, .Dup7, .Dup7, .Dup7,
       .MovUp13, .MovUp13,
       .MpVerify,
       .Drop, .Drop,
       .Eqw, .Assert,
       .Drop, .Drop, .Drop, .Drop,
       .SwapW] := by
  simp [mtree_get, validate_and_drop_root, List.replicate, List.append_assoc]

/-- Operations that manipulate a full word (4 stack elements) at once. -/
def Operation.is_word_sized : Operation → Bool
  | .SwapW | .SwapW2 | .SwapW3 | .CSwapW | .Eqw | .ReadW | .LoadW | .StoreW => true
  | _ => false

/-- The `MovDn*` operations (move the top stack element down the stack). -/
def Operation.is_mov_dn : Operation → Bool
  | .MovDn2 | .MovDn3 | .MovDn4 | .MovDn5 | .MovDn6 | .MovDn7 | .MovDn9
  | .MovDn11 | .MovDn13 | .MovDn15 => true
  | _ => false

/-- The `MovUp*` operations (move a stack element to the top). -/
def Operation.is_mov_up : Operation → Bool
  | .MovUp2 | .MovUp3 | .MovUp4 | .MovUp5 | .MovUp6 | .MovUp7 | .MovUp9
  | .MovUp11 | .MovUp13 | .MovUp15 => true
  | _ => false

/-- The cryptographic primitives invoked by the Merkle macro expansions. -/
def Operation.is_merkle_crypto : Operation → Bool
  | .MpVerify => true
  | .MrUpdate _ => true
  | _ => false

/-- Scans a list with a two-operation lookback and checks that every
cryptographic primitive is immediately preceded by two `MovUp` operations. -/
def crypto_preceded_by_movups : Operation → Operation → List Operation → Bool
  | _, _, [] => true
  | a, b, c :: rest =>
      (!c.is_merkle_crypto || (a.is_mov_up && b.is_mov_up)) &&
        crypto_preceded_by_movups b c rest

/-- Every cryptographic primitive in the list is immediately preceded by two
`MovUp` operations (with no other operation in between). -/
def crypto_restored_immediately (ops : List Operation) : Bool :=
  match ops with
  | [] => true
  | [a] => !a.is_merkle_crypto
  | a :: b :: rest =>
      !a.is_merkle_crypto && !b.is_merkle_crypto && crypto_preceded_by_movups a b rest

/-- C6: in each of the three Merkle macro expansions, both `MovDn` emissions
(moving depth and index down) occur before the first word-sized 4-element
manipulation, and the unique cryptographic primitive (`MpVerify` or
`MrUpdate`) is immediately preceded by the two `MovUp` restores, with no other
operation between the restore and the primitive. -/
theorem mtree_depth_index_movement :
    ((mtree_get []).countP Operation.is_mov_dn = 2
      ∧ ((mtree_get []).takeWhile (fun op => !op.is_word_sized)).countP
          Operation.is_mov_dn = 2
      ∧ (mtree_get []).countP Operation.is_merkle_crypto = 1
      ∧ crypto_restored_immediately (mtree_get []) = true)
  ∧ ((mtree_set []).countP Operation.is_mov_dn = 2
      ∧ ((mtree_set []).takeWhile (fun op => !op.is_word_sized)).countP
          Operation.is_mov_dn = 2
      ∧ (mtree_set []).countP Operation.is_merkle_crypto = 1
      ∧ crypto_restored_immediately (mtree_set []) = true)
  ∧ ((mtree_cwm []).countP Operation.is_mov_dn = 2
      ∧ ((mtree_cwm []).takeWhile (fun op => !op.is_word_sized)).countP
          Operation.is_mov_dn = 2
      ∧ (mtree_cwm []).countP Operation.is_merkle_crypto = 1
      ∧ crypto_restored_immediately (mtree_cwm []) = true) := by
  decide

-- ================================================================================
-- PROCESSOR BOOLEAN OPERATIONS (src/processor/src/operations/field_ops.rs)
-- ================================================================================

/-- Errors raised by the processor; only the variants reachable from the
operations under verification are represented. -/
inductive ExecutionError where
  | NotBinaryValue (v : Felt)
  | DivideByZero (clk : ℕ)

/-- The operand stack, top element first. -/
def Stack : Type := List Felt

/-- Modelled from the spec: `Stack::get(i)` returns the element at depth `i`
from the top of the operand stack (the stack implementation is declared
outside the provided sources; positions beyond the populated depth read as
zero-padding). -/
def Stack.get (s : Stack) (i : ℕ) : Felt := List.getD s i 0

/-- Modelled from the spec: `Stack::set(i, v)` replaces the element at depth
`i` with `v`. -/
def Stack.set (s : Stack) (i : ℕ) (v : Felt) : Stack := List.set s i v

/-- Modelled from the spec: `Stack::shift_left(start)` shifts the elements at
depths `start` and deeper one slot towards the top, removing the element at
depth `start - 1` and shrinking the stack by one. -/
def Stack.shift_left (s : Stack) (start : ℕ) : Stack :=
  List.take (start - 1) s ++ List.drop start s

/-- Modelled from the spec: `Stack::copy_state(start)` copies the elements at
depths `start` and deeper unchanged into the next row; on the value level the
stack is unchanged. -/
def Stack.copy_state (s : Stack) (start : ℕ) : Stack := s

/-- The processor state; only the operand stack is relevant to the operations
under verification. -/
structure Process where
  stack : Stack

/-- Modelled from the spec: `assert_binary` (declared outside the provided
sources) returns its argument if it is 0 or 1 and a `NotBinaryValue` error
otherwise — a boolean-typed operand holding a non-0/1 value is a fatal
stack-shape error. -/
def assert_binary (value : Felt) : Except ExecutionError Felt :=
  if value ≠ Felt.ZERO ∧ value ≠ Felt.ONE then
    Except.error (ExecutionError.NotBinaryValue value)
  else
    Except.ok value

/-- `Process::op_and`: pops two elements, checks both are binary, and pushes
their boolean AND. -/
def Process.op_and (p : Process) : Except ExecutionError Process := do
  let b ← assert_binary (p.stack.get 0)
  let a ← assert_binary (p.stack.get 1)
  let s :=
    if a = Felt.ONE ∧ b = Felt.ONE then p.stack.set 0 Felt.ONE
    else p.stack.set 0 Felt.ZERO
  pure ⟨s.shift_left 2⟩

/-- `Process::op_or`: pops two elements, checks both are binary, and pushes
their boolean OR. -/
def Process.op_or (p : Process) : Except ExecutionError Process := do
  let b ← assert_binary (p.stack.get 0)
  let a ← assert_binary (p.stack.get 1)
  let s :=
    if a = Felt.ONE ∨ b = Felt.ONE then p.stack.set 0 Felt.ONE
    else p.stack.set 0 Felt.ZERO
  pure ⟨s.shift_left 2⟩

/-- `Process::op_not`: pops an element, checks it is binary, and pushes
`ONE - a`. -/
def Process.op_not (p : Process) : Except ExecutionError Process := do
  let a ← assert_binary (p.stack.get 0)
  pure ⟨(p.stack.set 0 (Felt.ONE - a)).copy_state 1⟩

/-- An element is binary when it is 0 or 1. -/
def is_binary (v : Felt) : Prop := v = Felt.ZERO ∨ v = Felt.ONE

instance (v : Felt) : Decidable (is_binary v) := by
  unfold is_binary; infer_instance

/-- C8: on a stack with top elements `s0, s1`, `op_and` and `op_or` fail with
`NotBinaryValue` exactly when `s0` or `s1` is neither 0 nor 1, and `op_not`
fails exactly when `s0` is neither 0 nor 1; when the inspected elements are
binary, the boolean AND, OR, or NOT of the operands is left on top of the
stack. -/
theorem bool_ops_spec (s0 s1 : Felt) (rest : List Felt) :
    (Process.op_and ⟨s0 :: s1 :: rest⟩ =
      if is_binary s0 ∧ is_binary s1 then
        Except.ok ⟨(if s1 = Felt.ONE ∧ s0 = Felt.ONE then Felt.ONE else Felt.ZERO) :: rest⟩
      else
        Except.error (ExecutionError.NotBinaryValue (if is_binary s0 then s1 else s0)))
  ∧ (Process.op_or ⟨s0 :: s1 :: rest⟩ =
      if is_binary s0 ∧ is_binary s1 then
        Except.ok ⟨(if s1 = Felt.ONE ∨ s0 = Felt.ONE then Felt.ONE else Felt.ZERO) :: rest⟩
      else
        Except.error (ExecutionError.NotBinaryValue (if is_binary s0 then s1 else s0)))
  ∧ (Process.op_not ⟨s0 :: s1 :: rest⟩ =
      if is_binary s0 then
        Except.ok ⟨(if s0 = Felt.ONE then Felt.ZERO else Felt.ONE) :: s1 :: rest⟩
      else
        Except.error (ExecutionError.NotBinaryValue s0)) := by
  have h10 : (1 : Felt) ≠ 0 := by
    have h := Felt.new_ne_of_ne (a := 1) (b := 0) (by norm_num) (by norm_num) (by norm_num)
    simpa [Felt.new] using h
  have h01 : (0 : Felt) ≠ 1 := fun h => h10 h.symm
  refine ⟨?_, ?_, ?_⟩ <;>
    simp only [Process.op_and, Process.op_or, Process.op_not, assert_binary,
      Stack.get, Stack.set, Stack.shift_left, Stack.copy_state, is_binary,
      List.getD, List.get?, List.set, List.take, List.drop, Felt.ZERO, Felt.ONE] <;>
    rcases eq_or_ne s0 0 with h0 | h0 <;> rcases eq_or_ne s0 1 with h1 | h1 <;>
    rcases eq_or_ne s1 0 with h2 | h2 <;> rcases eq_or_ne s1 1 with h3 | h3 <;>
    simp_all [bind, Except.bind, pure, Except.pure]

-- ================================================================================
-- HASH-ACCUMULATOR CONSTRAINT (src/air/src/decoder/op_sponge.rs)
-- ================================================================================

/-- Modelled from the spec: the operations that carry a one-hot high-degree
flag consulted by the constraint evaluator; only the `Push` flag is read by
`enforce_hacc`. -/
inductive UserOps where
  | Push

/-- Modelled from the spec: the accessors of one trace row used by
`enforce_hacc` — the 12-element operation sponge, the user stack, and the
opcode column (the row type is declared outside the provided sources). -/
structure TraceState (F : Type) where
  op_sponge : Fin STATE_WIDTH → F
  user_stack : ℕ → F
  op_code : F

/-- Modelled from the spec: a VM transition, giving the current and the next
trace row and the high-degree operation flags of the transition. -/
structure VmTransition (F : Type) where
  current : TraceState F
  next : TraceState F
  hd_op_flags : UserOps → F

/-- Modelled from the spec: `are_equal(a, b)` is the algebraic form of the
equality constraint `a - b` (declared outside the provided sources). -/
def are_equal {F : Type} [CommRing F] (a b : F) : F := a - b

/-- Modelled from the spec: `result.agg_constraint(i, flag, value)` aggregates
`flag * value` into `result[i]` (declared outside the provided sources); when
the flag is zero nothing is aggregated and the constraint is vacuously
satisfied. -/
def agg_constraint {F : Type} [CommRing F] (r flag value : F) : F := r + flag * value

/-- `enforce_hacc`: evaluates the hash-accumulator transition constraint. The
first half of the Rescue round is applied to the current op sponge (add the
first `STATE_WIDTH` round constants from `ark`, apply the S-box, apply the MDS
layer), the current opcode is injected at position 0 and the operand value
(next row's stack top times the `Push` flag) at position 1; the inverse of the
second half of the round is applied to the next op sponge (inverse MDS, S-box,
subtract the second `STATE_WIDTH` round constants); the element-wise equality
of the two, gated by `op_flag`, is aggregated into `result`. The external
round-function layers `apply_sbox`, `apply_mds` and `apply_inv_mds` are passed
as parameters. -/
def enforce_hacc {F : Type} [CommRing F] [DecidableEq F]
    (apply_sbox apply_mds apply_inv_mds :
      (Fin STATE_WIDTH → F) → Fin STATE_WIDTH → F)
    (result : Fin STATE_WIDTH → F) (transition : VmTransition F)
    (ark : ℕ → F) (op_flag : F) : Fin STATE_WIDTH → F :=
  let stack_top := transition.next.user_stack 0
  let push_flag := transition.hd_op_flags UserOps.Push
  let op_value := stack_top * push_flag
  let old_sponge0 : Fin STATE_WIDTH → F :=
    fun i => transition.current.op_sponge i + ark i.val
  let old_sponge1 := apply_mds (apply_sbox old_sponge0)
  let old_sponge2 :=
    Function.update old_sponge1 0 (old_sponge1 0 + transition.current.op_code)
  let old_sponge :=
    Function.update old_sponge2 1 (old_sponge2 1 + op_value)
  let new_sponge0 := apply_sbox (apply_inv_mds transition.next.op_sponge)
  let new_sponge : Fin STATE_WIDTH → F :=
    fun i => new_sponge0 i - ark (STATE_WIDTH + i.val)
  fun i => agg_constraint (result i) op_flag (are_equal (old_sponge i) (new_sponge i))

/-- The forward half-round of the claim: add the first 12 round constants,
apply the S-box layer, apply the MDS layer, then add the current opcode at
position 0 and the operand value (next stack top times Push flag) at
position 1. -/
def fwd_half_round {F : Type} [CommRing F] [DecidableEq F]
    (apply_sbox apply_mds : (Fin STATE_WIDTH → F) → Fin STATE_WIDTH → F)
    (transition : VmTransition F) (ark : ℕ → F) : Fin STATE_WIDTH → F :=
  fun i =>
    apply_mds (apply_sbox (fun j => transition.current.op_sponge j + ark j.val)) i
      + (if i = 0 then transition.current.op_code else 0)
      + (if i = 1 then
          transition.next.user_stack 0 * transition.hd_op_flags UserOps.Push
        else 0)

/-- The backward half-round of the claim: apply the inverse MDS layer, apply
the S-box layer, subtract the second 12 round constants. -/
def bwd_half_round {F : Type} [CommRing F]
    (apply_sbox apply_inv_mds : (Fin STATE_WIDTH → F) → Fin STATE_WIDTH → F)
    (transition : VmTransition F) (ark : ℕ → F) : Fin STATE_WIDTH → F :=
  fun i => apply_sbox (apply_inv_mds transition.next.op_sponge) i
    - ark (STATE_WIDTH + i.val)

/-- C4: `enforce_hacc` aggregates, at every sponge position `i`, exactly
`op_flag * (F_i - B_i)` into `result[i]`, where `F` is the forward half-round
of the current sponge (with opcode and operand injections) and `B` the
backward reconstruction of the next sponge; in particular, when `op_flag` is
zero the result is unchanged and the constraint is vacuously satisfied. -/
theorem enforce_hacc_spec {F : Type} [CommRing F] [DecidableEq F]
    (apply_sbox apply_mds apply_inv_mds :
      (Fin STATE_WIDTH → F) → Fin STATE_WIDTH → F)
    (result : Fin STATE_WIDTH → F) (transition : VmTransition F)
    (ark : ℕ → F) (op_flag : F) :
    (∀ i : Fin STATE_WIDTH,
      enforce_hacc apply_sbox apply_mds apply_inv_mds result transition ark op_flag i
        = result i
          + op_flag *
            (fwd_half_round apply_sbox apply_mds transition ark i
              - bwd_half_round apply_sbox apply_inv_mds transition ark i))
  ∧ enforce_hacc apply_sbox apply_mds apply_inv_mds result transition ark 0
      = result := by
  have hgen : ∀ (flag : F) (i : Fin STATE_WIDTH),
      enforce_hacc apply_sbox apply_mds apply_inv_mds result transition ark flag i
        = result i
          + flag *
            (fwd_half_round apply_sbox apply_mds transition ark i
              - bwd_half_round apply_sbox apply_inv_mds transition ark i) := by
    intro flag i
    simp only [enforce_hacc, agg_constraint, are_equal, fwd_half_round,
      bwd_half_round, Function.update_apply]
    by_cases h0 : i = 0
    · subst h0
      have h01 : ((0 : Fin STATE_WIDTH) = 1) = False := by simp [Fin.ext_iff]
      simp only [h01, if_true, if_false, if_pos rfl]
      ring
    · by_cases h1 : i = 1
      · subst h1
        have h10 : ((1 : Fin STATE_WIDTH) = 0) = False := by simp [Fin.ext_iff]
        simp only [h10, if_true, if_false, if_pos rfl]
        ring
      · simp only [h0, h1, if_false]
        ring
  refine ⟨hgen op_flag, ?_⟩
  funext i
  rw [hgen 0 i]
  ring
